import Mathlib

/-!
Shallow embedding of the order-book slippage pipeline from the notebook
"Historical Orderbook Bid Ask Spread Aggregation" (cells 3, 5, 6: data
transformation, window definitions, slippage and metrics calculation,
join, and group-by aggregation).

Prices and quantities are modelled as rationals (the source uses doubles;
all claims are about exact algebraic relations, and the concrete inputs in
the claims are decimal fractions representable exactly).  `Option ℚ`
models a nullable Spark column: `none` is the null produced by a `when`
clause with no `otherwise` (the spec's `NoFill` sentinel).  Rational
division by zero yields 0; every claim constrains prices to be positive,
so this convention is never exercised on the claims' inputs.
-/

namespace OrderBook

/-- One price level of the book: the `(price, quantity)` pair obtained in
cell 3.2 from `col.getItem(0)`/`col.getItem(1)`. -/
structure Level where
  price : ℚ
  quantity : ℚ
deriving DecidableEq

/-- One raw row of the exploded `trades` frame (cell 2 / 3.1): exchange
timestamp, side flag, and the level data. -/
structure Trade where
  timestamp : ℤ
  isBid : Bool
  price : ℚ
  quantity : ℚ
deriving DecidableEq

/-- Cell 3.3/3.4: `bid_book = trades.filter(isBid == True)` restricted to
one timestamp partition, with columns renamed to `bid_price`/`bid_quantity`. -/
def bidRowsAt (ts : List Trade) (t : ℤ) : List Level :=
  (ts.filter fun r => r.isBid && r.timestamp == t).map fun r => ⟨r.price, r.quantity⟩

/-- Cell 3.3/3.4: `ask_book = trades.filter(isBid == False)` restricted to
one timestamp partition. -/
def askRowsAt (ts : List Trade) (t : ℤ) : List Level :=
  (ts.filter fun r => !r.isBid && r.timestamp == t).map fun r => ⟨r.price, r.quantity⟩

/-- Row `i` of a ladder (out-of-range reads never occur under the claims'
bounds hypotheses; the default is arbitrary). -/
def rowAt (l : List Level) (i : ℕ) : Level :=
  l.getD i ⟨0, 0⟩

/-- Cell 6: `cum_quantity = sum(quantity).over(window)` with
`rowsBetween(unboundedPreceding, 0)` — the sum of quantities of rows
`0..i` of the ladder in window (walk) order. -/
def cumQuantity (l : List Level) (i : ℕ) : ℚ :=
  ((l.map fun r => r.quantity).take (i + 1)).sum

/-- Cell 6: `cum_cost = sum(quantity * price).over(window)` — the sum of
`quantity·price` over rows `0..i` in walk order. -/
def cumCost (l : List Level) (i : ℕ) : ℚ :=
  ((l.map fun r => r.quantity * r.price).take (i + 1)).sum

/-- The cumulative quantity strictly before row `i` (`cum_quantity_{i-1}`,
with the empty sum 0 at `i = 0`). -/
def prevCumQuantity (l : List Level) (i : ℕ) : ℚ :=
  ((l.map fun r => r.quantity).take i).sum

/-- The cumulative cost strictly before row `i` (`cum_cost_{i-1}`, with
`cum_cost_{-1} = 0` at `i = 0`). -/
def prevCumCost (l : List Level) (i : ℕ) : ℚ :=
  ((l.map fun r => r.quantity * r.price).take i).sum

/-- Cell 6.2: `sell_order_price_1 = max("bid_price").over(timestampWindow)`
— the maximum bid price over the whole timestamp partition. -/
def bidBestPrice (l : List Level) : ℚ :=
  match l with
  | [] => 0
  | r :: rs => rs.foldl (fun m x => max m x.price) r.price

/-- Cell 6.3: `buy_order_price_1 = min("ask_price").over(timestampWindow)`
— the minimum ask price over the whole timestamp partition. -/
def askBestPrice (l : List Level) : ℚ :=
  match l with
  | [] => 0
  | r :: rs => rs.foldl (fun m x => min m x.price) r.price

/-- Cell 6: `desired_amount = order_amount / best_price`. -/
def desiredAmount (A best : ℚ) : ℚ :=
  A / best

/-- Cell 6 `slippage` column (textually identical for the bid and the ask
book, lines 331-332 and 344-345 of the source, modulo column names):
`when(order_amount - cum_cost < 0,
      ((order_amount - (cum_cost - quantity*price)) / price)
        + (cum_quantity - quantity)).otherwise(0)`. -/
def slippage (A : ℚ) (l : List Level) (i : ℕ) : ℚ :=
  if A - cumCost l i < 0 then
    ((A - (cumCost l i - (rowAt l i).quantity * (rowAt l i).price)) / (rowAt l i).price)
      + (cumQuantity l i - (rowAt l i).quantity)
  else 0

/-- Cell 6.2: `sell_currency_slippage =
when(slippage != 0, (desired_amount - slippage) * -1)` (null otherwise). -/
def sellCurrencySlippage (A : ℚ) (l : List Level) (i : ℕ) : Option ℚ :=
  if slippage A l i ≠ 0 then
    some ((desiredAmount A (bidBestPrice l) - slippage A l i) * (-1))
  else none

/-- Cell 6.2: `sell_dollar_slippage =
when(slippage != 0, (order_amount - slippage*sell_order_price_1) * -1)`. -/
def sellDollarSlippage (A : ℚ) (l : List Level) (i : ℕ) : Option ℚ :=
  if slippage A l i ≠ 0 then
    some ((A - slippage A l i * bidBestPrice l) * (-1))
  else none

/-- Cell 6.2: `sell_percent_slippage =
when(slippage != 0, ((desired_amount / slippage) - 1) * -1)`. -/
def sellPercentSlippage (A : ℚ) (l : List Level) (i : ℕ) : Option ℚ :=
  if slippage A l i ≠ 0 then
    some ((desiredAmount A (bidBestPrice l) / slippage A l i - 1) * (-1))
  else none

/-- Cell 6.3: `buy_currency_slippage =
when(slippage != 0, desired_amount - slippage)`. -/
def buyCurrencySlippage (A : ℚ) (l : List Level) (i : ℕ) : Option ℚ :=
  if slippage A l i ≠ 0 then
    some (desiredAmount A (askBestPrice l) - slippage A l i)
  else none

/-- Cell 6.3: `buy_dollar_slippage =
when(slippage != 0, order_amount - slippage*buy_order_price_1)`. -/
def buyDollarSlippage (A : ℚ) (l : List Level) (i : ℕ) : Option ℚ :=
  if slippage A l i ≠ 0 then
    some (A - slippage A l i * askBestPrice l)
  else none

/-- Cell 6.3: `buy_percent_slippage =
when(slippage != 0, (desired_amount / slippage) - 1)`. -/
def buyPercentSlippage (A : ℚ) (l : List Level) (i : ℕ) : Option ℚ :=
  if slippage A l i ≠ 0 then
    some (desiredAmount A (askBestPrice l) / slippage A l i - 1)
  else none

/-- Insert a level into a list kept in descending price order (used to
model the `orderBy(desc(bid_price))` window ordering). -/
def insertDesc (r : Level) : List Level → List Level
  | [] => [r]
  | x :: xs => if x.price ≤ r.price then r :: x :: xs else x :: insertDesc r xs

/-- Sort a ladder by descending price (the bid window order of cell 5.2). -/
def sortDesc : List Level → List Level
  | [] => []
  | x :: xs => insertDesc x (sortDesc xs)

/-- Insert a level into a list kept in ascending price order. -/
def insertAsc (r : Level) : List Level → List Level
  | [] => [r]
  | x :: xs => if r.price ≤ x.price then r :: x :: xs else x :: insertAsc r xs

/-- Sort a ladder by ascending price (the ask window order of cell 5.2). -/
def sortAsc : List Level → List Level
  | [] => []
  | x :: xs => insertAsc x (sortAsc xs)

/-- The bid ladder for timestamp `t`: the bid rows at `t` in the bid
window's walk order (price descending). -/
def bidLadder (ts : List Trade) (t : ℤ) : List Level :=
  sortDesc (bidRowsAt ts t)

/-- The ask ladder for timestamp `t`: the ask rows at `t` in the ask
window's walk order (price ascending). -/
def askLadder (ts : List Trade) (t : ℤ) : List Level :=
  sortAsc (askRowsAt ts t)

/-- Total cost of a ladder: `cum_cost` of its last row (sum over all rows). -/
def totalCost (l : List Level) : ℚ :=
  (l.map fun r => r.quantity * r.price).sum

/-- Cell 6.4: `first(col, ignorenulls=True)` over a group — the first
non-null value of the column, null when every value is null.  (Spark does
not fix the row order inside the group; we take walk order.  The claims
settled below depend only on order-independent facts: whether the group
key is present, and whether all values of a column are null.) -/
def firstNonNull (l : List (Option ℚ)) : Option ℚ :=
  (l.filterMap id).head?

/-- One row of the cell 6.4 group-by output: the six aggregated metrics. -/
structure CombinedRecord where
  buy_currency_slippage : Option ℚ
  buy_dollar_slippage : Option ℚ
  buy_percent_slippage : Option ℚ
  sell_currency_slippage : Option ℚ
  sell_dollar_slippage : Option ℚ
  sell_percent_slippage : Option ℚ
deriving DecidableEq

/-- Cell 6.4: `bid_book.join(ask_book, on='exchangeTimestamp',
how='inner')` followed by `groupby("exchangeTimestamp").agg(first(...,
ignorenulls=True) ...)`.  A timestamp contributes an output row exactly
when the inner join keeps it, i.e. when both sides have at least one raw
row at `t`; each aggregated metric is the first non-null per-row value of
that metric over the corresponding ladder. -/
def combinedRecordAt (A : ℚ) (ts : List Trade) (t : ℤ) : Option CombinedRecord :=
  if bidRowsAt ts t = [] ∨ askRowsAt ts t = [] then none
  else
    some
      { buy_currency_slippage :=
          firstNonNull ((List.range (askLadder ts t).length).map fun i =>
            buyCurrencySlippage A (askLadder ts t) i)
        buy_dollar_slippage :=
          firstNonNull ((List.range (askLadder ts t).length).map fun i =>
            buyDollarSlippage A (askLadder ts t) i)
        buy_percent_slippage :=
          firstNonNull ((List.range (askLadder ts t).length).map fun i =>
            buyPercentSlippage A (askLadder ts t) i)
        sell_currency_slippage :=
          firstNonNull ((List.range (bidLadder ts t).length).map fun i =>
            sellCurrencySlippage A (bidLadder ts t) i)
        sell_dollar_slippage :=
          firstNonNull ((List.range (bidLadder ts t).length).map fun i =>
            sellDollarSlippage A (bidLadder ts t) i)
        sell_percent_slippage :=
          firstNonNull ((List.range (bidLadder ts t).length).map fun i =>
            sellPercentSlippage A (bidLadder ts t) i) }

/-- A bid ladder in walk order: price descending (spec section 3). -/
abbrev BidSorted (l : List Level) : Prop :=
  l.Sorted fun a b => b.price ≤ a.price

/-- An ask ladder in walk order: price ascending (spec section 3). -/
abbrev AskSorted (l : List Level) : Prop :=
  l.Sorted fun a b => a.price ≤ b.price

/-- The spec's formulation of the top-of-book price (section 4.2 step 1):
the price of row 0 of the ladder.  Stated from the spec's words for the
refinement comparison of claim C7; the source instead takes a max/min over
the timestamp partition (`bidBestPrice`/`askBestPrice`). -/
def specTopPrice (l : List Level) : ℚ :=
  (rowAt l 0).price

/-- The spec's total filled quantity at a clearing row (section 4.2 step
5): `Q = (cum_quantity_i - quantity_i) + remaining / price_i` with
`remaining = order_amount - (cum_cost_i - price_i·quantity_i)`.  Stated
from the spec's words, for comparison with the source's `slippage`
column. -/
def specFillQty (A : ℚ) (l : List Level) (i : ℕ) : ℚ :=
  (cumQuantity l i - (rowAt l i).quantity)
    + (A - (cumCost l i - (rowAt l i).price * (rowAt l i).quantity)) / (rowAt l i).price

/-- The concrete ask ladder of the spec's section 8 scenario:
`[(1700.00, qty 400), (1700.50, qty 400), (1701.00, qty 400)]`. -/
def scenarioLadder : List Level :=
  [⟨1700, 400⟩, ⟨3401/2, 400⟩, ⟨1701, 400⟩]

lemma rowAt_eq_getElem (l : List Level) (i : ℕ) (h : i < l.length) :
    rowAt l i = l[i] :=
  List.getD_eq_getElem l _ h

lemma rowAt_mem (l : List Level) (i : ℕ) (h : i < l.length) :
    rowAt l i ∈ l := by
  rw [rowAt_eq_getElem l i h]
  exact List.getElem_mem h

lemma cumQuantity_eq_prev_add (l : List Level) (i : ℕ) (h : i < l.length) :
    cumQuantity l i = prevCumQuantity l i + (rowAt l i).quantity := by
  have hm : i < (l.map fun r => r.quantity).length := by simpa using h
  unfold cumQuantity prevCumQuantity
  rw [List.sum_take_succ _ i hm, List.getElem_map, rowAt_eq_getElem l i h]

lemma cumCost_eq_prev_add (l : List Level) (i : ℕ) (h : i < l.length) :
    cumCost l i = prevCumCost l i + (rowAt l i).quantity * (rowAt l i).price := by
  have hm : i < (l.map fun r => r.quantity * r.price).length := by simpa using h
  unfold cumCost prevCumCost
  rw [List.sum_take_succ _ i hm, List.getElem_map, rowAt_eq_getElem l i h]

lemma slippage_of_le (A : ℚ) (l : List Level) (i : ℕ) (h : cumCost l i ≤ A) :
    slippage A l i = 0 := by
  unfold slippage
  rw [if_neg]
  simp only [sub_neg, not_lt]
  exact h

lemma slippage_of_lt (A : ℚ) (l : List Level) (i : ℕ) (h : A < cumCost l i) :
    slippage A l i =
      ((A - (cumCost l i - (rowAt l i).quantity * (rowAt l i).price)) / (rowAt l i).price)
        + (cumQuantity l i - (rowAt l i).quantity) := by
  unfold slippage
  rw [if_pos (sub_neg.mpr h)]

lemma prevCumQuantity_nonneg (l : List Level) (i : ℕ)
    (h : ∀ r ∈ l, 0 ≤ r.quantity) : 0 ≤ prevCumQuantity l i := by
  apply List.sum_nonneg
  intro x hx
  have hx2 := List.take_subset _ _ hx
  obtain ⟨r, hr, rfl⟩ := List.mem_map.mp hx2
  exact h r hr

lemma prevCumCost_nonneg (l : List Level) (i : ℕ)
    (h : ∀ r ∈ l, 0 ≤ r.quantity * r.price) : 0 ≤ prevCumCost l i := by
  apply List.sum_nonneg
  intro x hx
  have hx2 := List.take_subset _ _ hx
  obtain ⟨r, hr, rfl⟩ := List.mem_map.mp hx2
  exact h r hr

lemma prevCumQuantity_pos (l : List Level) (i : ℕ) (hi : i < l.length) (h0 : i ≠ 0)
    (h : ∀ r ∈ l, 0 < r.quantity) : 0 < prevCumQuantity l i := by
  apply List.sum_pos
  · intro x hx
    have hx2 := List.take_subset _ _ hx
    obtain ⟨r, hr, rfl⟩ := List.mem_map.mp hx2
    exact h r hr
  · have hlen : ((l.map fun r => r.quantity).take i).length = i := by
      rw [List.length_take]
      exact Nat.min_eq_left (by simpa using Nat.le_of_lt hi)
    intro hnil
    rw [hnil] at hlen
    exact h0 hlen.symm

/-- At a strict crossing row whose predecessor cost has not strictly
crossed, the slippage candidate is strictly positive (hence non-null
metrics are emitted there). -/
lemma slippage_pos (A : ℚ) (l : List Level) (i : ℕ) (hi : i < l.length)
    (hpos : ∀ r ∈ l, 0 < r.price ∧ 0 < r.quantity) (hA : 0 < A)
    (hc : A < cumCost l i) (hprev : prevCumCost l i ≤ A) :
    0 < slippage A l i := by
  have hp : 0 < (rowAt l i).price := (hpos _ (rowAt_mem l i hi)).1
  have hstep := cumCost_eq_prev_add l i hi
  have hq := cumQuantity_eq_prev_add l i hi
  rw [slippage_of_lt A l i hc]
  have h1 : cumCost l i - (rowAt l i).quantity * (rowAt l i).price = prevCumCost l i := by
    rw [hstep]; ring
  have h2 : cumQuantity l i - (rowAt l i).quantity = prevCumQuantity l i := by
    rw [hq]; ring
  rw [h1, h2]
  rcases lt_or_eq_of_le hprev with hlt | heq
  · have hdiv : 0 < (A - prevCumCost l i) / (rowAt l i).price :=
      div_pos (by linarith) hp
    have hq0 : 0 ≤ prevCumQuantity l i :=
      prevCumQuantity_nonneg l i fun r hr => le_of_lt (hpos r hr).2
    linarith
  · have hi0 : i ≠ 0 := by
      intro h0
      rw [h0] at heq
      simp [prevCumCost] at heq
      linarith
    have hq1 : 0 < prevCumQuantity l i :=
      prevCumQuantity_pos l i hi hi0 fun r hr => (hpos r hr).2
    rw [← heq]
    simp only [sub_self, zero_div, zero_add]
    exact hq1

lemma foldl_max_price_eq (p : ℚ) (l : List Level) (h : ∀ x ∈ l, x.price ≤ p) :
    l.foldl (fun m x => max m x.price) p = p := by
  induction l generalizing p with
  | nil => rfl
  | cons x xs ih =>
    simp only [List.foldl_cons]
    rw [max_eq_left (h x (List.mem_cons_self x xs))]
    exact ih p fun y hy => h y (List.mem_cons_of_mem x hy)

lemma foldl_min_price_eq (p : ℚ) (l : List Level) (h : ∀ x ∈ l, p ≤ x.price) :
    l.foldl (fun m x => min m x.price) p = p := by
  induction l generalizing p with
  | nil => rfl
  | cons x xs ih =>
    simp only [List.foldl_cons]
    rw [min_eq_left (h x (List.mem_cons_self x xs))]
    exact ih p fun y hy => h y (List.mem_cons_of_mem x hy)

/-- Under the bid sort invariant the partition-wide maximum of prices is
the price of row 0. -/
lemma bidBestPrice_sorted (l : List Level) (h : BidSorted l) (hne : l ≠ []) :
    bidBestPrice l = specTopPrice l := by
  cases l with
  | nil => exact absurd rfl hne
  | cons r rs =>
    have hall : ∀ x ∈ rs, x.price ≤ r.price := (List.pairwise_cons.mp h).1
    show rs.foldl (fun m x => max m x.price) r.price = (rowAt (r :: rs) 0).price
    rw [foldl_max_price_eq r.price rs hall]
    rfl

/-- Under the ask sort invariant the partition-wide minimum of prices is
the price of row 0. -/
lemma askBestPrice_sorted (l : List Level) (h : AskSorted l) (hne : l ≠ []) :
    askBestPrice l = specTopPrice l := by
  cases l with
  | nil => exact absurd rfl hne
  | cons r rs =>
    have hall : ∀ x ∈ rs, r.price ≤ x.price := (List.pairwise_cons.mp h).1
    show rs.foldl (fun m x => min m x.price) r.price = (rowAt (r :: rs) 0).price
    rw [foldl_min_price_eq r.price rs hall]
    rfl

lemma le_foldl_max_price (p : ℚ) (l : List Level) :
    p ≤ l.foldl (fun m x => max m x.price) p := by
  induction l generalizing p with
  | nil => exact le_refl p
  | cons x xs ih => exact le_trans (le_max_left p x.price) (ih (max p x.price))

lemma foldl_min_price_pos (p : ℚ) (l : List Level) (hp : 0 < p)
    (h : ∀ x ∈ l, 0 < x.price) : 0 < l.foldl (fun m x => min m x.price) p := by
  induction l generalizing p with
  | nil => exact hp
  | cons x xs ih =>
    exact ih (min p x.price) (lt_min hp (h x (List.mem_cons_self x xs)))
      fun y hy => h y (List.mem_cons_of_mem x hy)

lemma bidBestPrice_pos (l : List Level) (hne : l ≠ [])
    (h : ∀ r ∈ l, 0 < r.price) : 0 < bidBestPrice l := by
  cases l with
  | nil => exact absurd rfl hne
  | cons r rs =>
    exact lt_of_lt_of_le (h r (List.mem_cons_self r rs)) (le_foldl_max_price r.price rs)

lemma askBestPrice_pos (l : List Level) (hne : l ≠ [])
    (h : ∀ r ∈ l, 0 < r.price) : 0 < askBestPrice l := by
  cases l with
  | nil => exact absurd rfl hne
  | cons r rs =>
    exact foldl_min_price_pos r.price rs (h r (List.mem_cons_self r rs))
      fun y hy => h y (List.mem_cons_of_mem r hy)

lemma cumCost_le_totalCost (l : List Level) (i : ℕ)
    (h : ∀ r ∈ l, 0 ≤ r.quantity * r.price) : cumCost l i ≤ totalCost l := by
  have hsplit := List.sum_take_add_sum_drop (l.map fun r => r.quantity * r.price) (i + 1)
  have hdrop : 0 ≤ ((l.map fun r => r.quantity * r.price).drop (i + 1)).sum := by
    apply List.sum_nonneg
    intro x hx
    have hx2 := List.drop_subset _ _ hx
    obtain ⟨r, hr, rfl⟩ := List.mem_map.mp hx2
    exact h r hr
  unfold cumCost totalCost
  linarith

lemma firstNonNull_of_all_none (l : List (Option ℚ)) (h : ∀ x ∈ l, x = none) :
    firstNonNull l = none := by
  unfold firstNonNull
  have : l.filterMap id = [] := by
    induction l with
    | nil => rfl
    | cons a t ih =>
      have ha := h a (List.mem_cons_self a t)
      subst ha
      simpa using ih fun x hx => h x (List.mem_cons_of_mem _ hx)
  rw [this]
  rfl

/-- At any strictly crossed row the source's `slippage` value coincides
with the spec's total filled quantity `Q`. -/
lemma slippage_eq_specFillQty (A : ℚ) (l : List Level) (i : ℕ)
    (h : A < cumCost l i) : slippage A l i = specFillQty A l i := by
  rw [slippage_of_lt A l i h]
  unfold specFillQty
  ring

/-- Claim C7: the code's top-of-book price — the maximum of bid prices
(resp. minimum of ask prices) over the timestamp partition — equals the
spec's top-of-book price, the price of row 0, for every ladder satisfying
the sort invariant.  The two formulations of `best_price` are
equivalent. -/
theorem claim_C7 (lb la : List Level)
    (hb : BidSorted lb) (hbne : lb ≠ [])
    (ha : AskSorted la) (hane : la ≠ []) :
    bidBestPrice lb = specTopPrice lb ∧ askBestPrice la = specTopPrice la :=
  ⟨bidBestPrice_sorted lb hb hbne, askBestPrice_sorted la ha hane⟩

/-- Witness for C7 on a two-level descending bid ladder and a two-level
ascending ask ladder. -/
theorem claim_C7_witness :
    bidBestPrice [⟨3, 1⟩, ⟨2, 1⟩] = specTopPrice [⟨3, 1⟩, ⟨2, 1⟩] ∧
    askBestPrice [⟨2, 1⟩, ⟨3, 1⟩] = specTopPrice [⟨2, 1⟩, ⟨3, 1⟩] :=
  claim_C7 [⟨3, 1⟩, ⟨2, 1⟩] [⟨2, 1⟩, ⟨3, 1⟩]
    (by decide) (by decide) (by decide) (by decide)

/-- Claim C8: for every ladder whose levels all have positive price and
positive quantity, the running sums `cum_quantity` and `cum_cost` are
strictly increasing (hence non-decreasing) along walk order. -/
theorem claim_C8 (l : List Level) (i : ℕ)
    (hpos : ∀ r ∈ l, 0 < r.price ∧ 0 < r.quantity)
    (h : i + 1 < l.length) :
    cumQuantity l i < cumQuantity l (i + 1) ∧ cumCost l i < cumCost l (i + 1) := by
  have hq : 0 < (rowAt l (i + 1)).quantity := (hpos _ (rowAt_mem l (i + 1) h)).2
  have hp : 0 < (rowAt l (i + 1)).price := (hpos _ (rowAt_mem l (i + 1) h)).1
  constructor
  · have hstep := cumQuantity_eq_prev_add l (i + 1) h
    have hpq : prevCumQuantity l (i + 1) = cumQuantity l i := rfl
    rw [hstep, hpq]
    linarith
  · have hstep := cumCost_eq_prev_add l (i + 1) h
    have hpc : prevCumCost l (i + 1) = cumCost l i := rfl
    have hqp : 0 < (rowAt l (i + 1)).quantity * (rowAt l (i + 1)).price := mul_pos hq hp
    rw [hstep, hpc]
    linarith

/-- Witness for C8 on a concrete two-level ladder. -/
theorem claim_C8_witness :
    cumQuantity [⟨1, 1⟩, ⟨2, 1⟩] 0 < cumQuantity [⟨1, 1⟩, ⟨2, 1⟩] 1 ∧
    cumCost [⟨1, 1⟩, ⟨2, 1⟩] 0 < cumCost [⟨1, 1⟩, ⟨2, 1⟩] 1 :=
  claim_C8 [⟨1, 1⟩, ⟨2, 1⟩] 0 (by decide) (by decide)

/-- Counterexample to claim C2 as stated: on the single-level ladder
`[(price 2, qty 1)]` with `order_amount = 2` (so `price·quantity` equals
the notional exactly), the claim asserts `percent_slippage = 0` is
present; the code's `when(order_amount - cum_cost < 0, ...)` test is
strict, so the row instead carries the null `NoFill` sentinel. -/
theorem claim_C2_cex :
    cumCost [(⟨2, 1⟩ : Level)] 0 = 2 ∧
    buyPercentSlippage 2 [(⟨2, 1⟩ : Level)] 0 = none := by
  norm_num [cumCost, buyPercentSlippage, slippage, rowAt, cumQuantity,
    desiredAmount, askBestPrice]

/-- Claim C2, amended: at any row whose cumulative cost equals the order
amount exactly, the code's slippage candidate is `0` and all six metric
columns (three per side) carry the `NoFill` sentinel (null); an exact
match is treated as no fill, not as a zero-slippage fill. -/
theorem claim_C2 (A : ℚ) (l : List Level) (i : ℕ) (h : cumCost l i = A) :
    slippage A l i = 0 ∧
    buyCurrencySlippage A l i = none ∧ buyDollarSlippage A l i = none ∧
    buyPercentSlippage A l i = none ∧ sellCurrencySlippage A l i = none ∧
    sellDollarSlippage A l i = none ∧ sellPercentSlippage A l i = none := by
  have hs : slippage A l i = 0 := slippage_of_le A l i (le_of_eq h)
  refine ⟨hs, ?_, ?_, ?_, ?_, ?_, ?_⟩ <;>
    simp [buyCurrencySlippage, buyDollarSlippage, buyPercentSlippage,
      sellCurrencySlippage, sellDollarSlippage, sellPercentSlippage, hs]

/-- Witness for the amended C2 at the exact-match single-level ladder. -/
theorem claim_C2_witness :
    slippage 2 [(⟨2, 1⟩ : Level)] 0 = 0 ∧
    buyCurrencySlippage 2 [(⟨2, 1⟩ : Level)] 0 = none ∧
    buyDollarSlippage 2 [(⟨2, 1⟩ : Level)] 0 = none ∧
    buyPercentSlippage 2 [(⟨2, 1⟩ : Level)] 0 = none ∧
    sellCurrencySlippage 2 [(⟨2, 1⟩ : Level)] 0 = none ∧
    sellDollarSlippage 2 [(⟨2, 1⟩ : Level)] 0 = none ∧
    sellPercentSlippage 2 [(⟨2, 1⟩ : Level)] 0 = none :=
  claim_C2 2 [(⟨2, 1⟩ : Level)] 0 (by norm_num [cumCost])

/-- Counterexample to claim C1 as stated: on the ask ladder
`[(1,1), (2,1), (3,1)]` with `order_amount = 2`, the clearing row in the
claim's sense is row 1 (`cum_cost_1 = 3 ≥ 2`, `cum_cost_0 = 1 < 2`), yet
row 2 also carries a non-`NoFill` metric (`buy_currency_slippage =
1/3`): the code's `when` clause fires at every strictly crossed row, not
only at the first one, so more than one row carries a value. -/
theorem claim_C1_cex :
    cumCost [(⟨1, 1⟩ : Level), ⟨2, 1⟩, ⟨3, 1⟩] 0 < 2 ∧
    2 ≤ cumCost [(⟨1, 1⟩ : Level), ⟨2, 1⟩, ⟨3, 1⟩] 1 ∧
    buyCurrencySlippage 2 [(⟨1, 1⟩ : Level), ⟨2, 1⟩, ⟨3, 1⟩] 2 = some (1/3) := by
  norm_num [cumCost, buyCurrencySlippage, slippage, rowAt, cumQuantity,
    desiredAmount, askBestPrice]

/-- Claim C1, amended: for ladders with positive prices and quantities
and positive order amount, a row whose cumulative cost has not strictly
exceeded the order amount carries the `NoFill` sentinel on all three
metrics of its side, and the first strictly crossing row (cumulative cost
strictly above the order amount, previous cumulative cost not above it)
carries non-`NoFill` values on all three; uniqueness fails — rows after
the first crossing may also carry values (see the counterexample), and a
row whose cumulative cost exactly equals the order amount is on the
`NoFill` side of the test. -/
theorem claim_C1 (A : ℚ) (lb la : List Level) (i j : ℕ)
    (hbi : i < lb.length) (haj : j < la.length)
    (hbpos : ∀ r ∈ lb, 0 < r.price ∧ 0 < r.quantity)
    (hapos : ∀ r ∈ la, 0 < r.price ∧ 0 < r.quantity)
    (hA : 0 < A) :
    (cumCost lb i ≤ A →
      sellCurrencySlippage A lb i = none ∧ sellDollarSlippage A lb i = none ∧
      sellPercentSlippage A lb i = none) ∧
    (A < cumCost lb i → prevCumCost lb i ≤ A →
      sellCurrencySlippage A lb i ≠ none ∧ sellDollarSlippage A lb i ≠ none ∧
      sellPercentSlippage A lb i ≠ none) ∧
    (cumCost la j ≤ A →
      buyCurrencySlippage A la j = none ∧ buyDollarSlippage A la j = none ∧
      buyPercentSlippage A la j = none) ∧
    (A < cumCost la j → prevCumCost la j ≤ A →
      buyCurrencySlippage A la j ≠ none ∧ buyDollarSlippage A la j ≠ none ∧
      buyPercentSlippage A la j ≠ none) := by
  refine ⟨fun hle => ?_, fun hc hprev => ?_, fun hle => ?_, fun hc hprev => ?_⟩
  · have hs : slippage A lb i = 0 := slippage_of_le A lb i hle
    refine ⟨?_, ?_, ?_⟩ <;>
      simp [sellCurrencySlippage, sellDollarSlippage, sellPercentSlippage, hs]
  · have hs : slippage A lb i ≠ 0 :=
      ne_of_gt (slippage_pos A lb i hbi hbpos hA hc hprev)
    refine ⟨?_, ?_, ?_⟩ <;>
      simp [sellCurrencySlippage, sellDollarSlippage, sellPercentSlippage, hs]
  · have hs : slippage A la j = 0 := slippage_of_le A la j hle
    refine ⟨?_, ?_, ?_⟩ <;>
      simp [buyCurrencySlippage, buyDollarSlippage, buyPercentSlippage, hs]
  · have hs : slippage A la j ≠ 0 :=
      ne_of_gt (slippage_pos A la j haj hapos hA hc hprev)
    refine ⟨?_, ?_, ?_⟩ <;>
      simp [buyCurrencySlippage, buyDollarSlippage, buyPercentSlippage, hs]

/-- Witness for the amended C1: a bid ladder crossing at row 0 carries a
value there, an ask ladder crossing at row 1 carries a value there. -/
theorem claim_C1_witness :
    sellCurrencySlippage 2 [(⟨3, 1⟩ : Level), ⟨2, 1⟩, ⟨1, 1⟩] 0 ≠ none ∧
    buyCurrencySlippage 2 [(⟨1, 1⟩ : Level), ⟨2, 1⟩, ⟨3, 1⟩] 1 ≠ none := by
  have h := claim_C1 2 [(⟨3, 1⟩ : Level), ⟨2, 1⟩, ⟨1, 1⟩]
    [(⟨1, 1⟩ : Level), ⟨2, 1⟩, ⟨3, 1⟩] 0 1
    (by decide) (by decide) (by decide) (by decide) (by norm_num)
  exact ⟨(h.2.1 (by norm_num [cumCost]) (by norm_num [prevCumCost])).1,
    (h.2.2.2 (by norm_num [cumCost]) (by norm_num [prevCumCost])).1⟩

/-- Counterexample to claim C4 as stated: on the single-level ask ladder
`[(4, 2)]` with `order_amount = 8`, row 0 is the clearing row in the
claim's sense (`cum_cost_0 = 8 ≥ 8`, `cum_cost_{-1} = 0 < 8`) and the
claim predicts present metrics (`currency_slippage = desired - Q = 0`);
the code's strict test leaves all metrics null there. -/
theorem claim_C4_cex :
    prevCumCost [(⟨4, 2⟩ : Level)] 0 < 8 ∧
    8 ≤ cumCost [(⟨4, 2⟩ : Level)] 0 ∧
    desiredAmount 8 (askBestPrice [(⟨4, 2⟩ : Level)]) - specFillQty 8 [(⟨4, 2⟩ : Level)] 0 = 0 ∧
    buyCurrencySlippage 8 [(⟨4, 2⟩ : Level)] 0 = none := by
  norm_num [prevCumCost, cumCost, buyCurrencySlippage, slippage, rowAt,
    cumQuantity, desiredAmount, askBestPrice, specFillQty]

/-- Claim C4, amended: at the clearing row of any ladder with positive
prices and quantities, provided the crossing is strict (`cum_cost_i >
order_amount`; on an exact match the row carries `NoFill` instead, see
the counterexample), the metrics are present and equal the claimed
expressions: with `Q` the total filled quantity and `desired_amount =
order_amount / best_price`, a buy order (ask ladder) yields
`currency_slippage = desired_amount - Q`, `dollar_slippage =
order_amount - Q·best_price`, `percent_slippage = desired_amount/Q - 1`,
and a sell order (bid ladder) yields the same three expressions each
multiplied by `-1`. -/
theorem claim_C4 (A : ℚ) (lb la : List Level) (i j : ℕ)
    (hbi : i < lb.length) (haj : j < la.length)
    (hbpos : ∀ r ∈ lb, 0 < r.price ∧ 0 < r.quantity)
    (hapos : ∀ r ∈ la, 0 < r.price ∧ 0 < r.quantity)
    (hbprev : prevCumCost lb i < A) (hbc : A < cumCost lb i)
    (haprev : prevCumCost la j < A) (hac : A < cumCost la j) :
    sellCurrencySlippage A lb i =
      some ((desiredAmount A (bidBestPrice lb) - specFillQty A lb i) * (-1)) ∧
    sellDollarSlippage A lb i =
      some ((A - specFillQty A lb i * bidBestPrice lb) * (-1)) ∧
    sellPercentSlippage A lb i =
      some ((desiredAmount A (bidBestPrice lb) / specFillQty A lb i - 1) * (-1)) ∧
    buyCurrencySlippage A la j =
      some (desiredAmount A (askBestPrice la) - specFillQty A la j) ∧
    buyDollarSlippage A la j =
      some (A - specFillQty A la j * askBestPrice la) ∧
    buyPercentSlippage A la j =
      some (desiredAmount A (askBestPrice la) / specFillQty A la j - 1) := by
  have hAb : 0 < A := by
    have h0 : 0 ≤ prevCumCost lb i :=
      prevCumCost_nonneg lb i fun r hr =>
        le_of_lt (mul_pos (hbpos r hr).2 (hbpos r hr).1)
    linarith
  have hsb : slippage A lb i ≠ 0 :=
    ne_of_gt (slippage_pos A lb i hbi hbpos hAb hbc (le_of_lt hbprev))
  have hsa : slippage A la j ≠ 0 :=
    ne_of_gt (slippage_pos A la j haj hapos hAb hac (le_of_lt haprev))
  have heb : slippage A lb i = specFillQty A lb i := slippage_eq_specFillQty A lb i hbc
  have hea : slippage A la j = specFillQty A la j := slippage_eq_specFillQty A la j hac
  refine ⟨?_, ?_, ?_, ?_, ?_, ?_⟩
  · rw [sellCurrencySlippage, if_pos hsb, heb]
  · rw [sellDollarSlippage, if_pos hsb, heb]
  · rw [sellPercentSlippage, if_pos hsb, heb]
  · rw [buyCurrencySlippage, if_pos hsa, hea]
  · rw [buyDollarSlippage, if_pos hsa, hea]
  · rw [buyPercentSlippage, if_pos hsa, hea]

/-- Witness for the amended C4 on a bid ladder `[(2,1),(1,1)]` and an ask
ladder `[(1,1),(2,1)]`, both clearing strictly at row 1 with
`order_amount = 5/2`. -/
theorem claim_C4_witness :
    sellCurrencySlippage (5/2) [(⟨2, 1⟩ : Level), ⟨1, 1⟩] 1 =
      some ((desiredAmount (5/2) (bidBestPrice [(⟨2, 1⟩ : Level), ⟨1, 1⟩]) -
        specFillQty (5/2) [(⟨2, 1⟩ : Level), ⟨1, 1⟩] 1) * (-1)) ∧
    sellDollarSlippage (5/2) [(⟨2, 1⟩ : Level), ⟨1, 1⟩] 1 =
      some (((5/2) - specFillQty (5/2) [(⟨2, 1⟩ : Level), ⟨1, 1⟩] 1 *
        bidBestPrice [(⟨2, 1⟩ : Level), ⟨1, 1⟩]) * (-1)) ∧
    sellPercentSlippage (5/2) [(⟨2, 1⟩ : Level), ⟨1, 1⟩] 1 =
      some ((desiredAmount (5/2) (bidBestPrice [(⟨2, 1⟩ : Level), ⟨1, 1⟩]) /
        specFillQty (5/2) [(⟨2, 1⟩ : Level), ⟨1, 1⟩] 1 - 1) * (-1)) ∧
    buyCurrencySlippage (5/2) [(⟨1, 1⟩ : Level), ⟨2, 1⟩] 1 =
      some (desiredAmount (5/2) (askBestPrice [(⟨1, 1⟩ : Level), ⟨2, 1⟩]) -
        specFillQty (5/2) [(⟨1, 1⟩ : Level), ⟨2, 1⟩] 1) ∧
    buyDollarSlippage (5/2) [(⟨1, 1⟩ : Level), ⟨2, 1⟩] 1 =
      some ((5/2) - specFillQty (5/2) [(⟨1, 1⟩ : Level), ⟨2, 1⟩] 1 *
        askBestPrice [(⟨1, 1⟩ : Level), ⟨2, 1⟩]) ∧
    buyPercentSlippage (5/2) [(⟨1, 1⟩ : Level), ⟨2, 1⟩] 1 =
      some (desiredAmount (5/2) (askBestPrice [(⟨1, 1⟩ : Level), ⟨2, 1⟩]) /
        specFillQty (5/2) [(⟨1, 1⟩ : Level), ⟨2, 1⟩] 1 - 1) :=
  claim_C4 (5/2) [(⟨2, 1⟩ : Level), ⟨1, 1⟩] [(⟨1, 1⟩ : Level), ⟨2, 1⟩] 1 1
    (by decide) (by decide) (by decide) (by decide)
    (by norm_num [prevCumCost]) (by norm_num [cumCost])
    (by norm_num [prevCumCost]) (by norm_num [cumCost])

/-- Claim C9: at every row where the code emits non-null slippage metrics
(its slippage candidate is nonzero), the three metrics satisfy, on both
sides, `dollar_slippage = best_price · currency_slippage` and
`percent_slippage = currency_slippage / Q` — the dollar and percent
figures are determined by the currency figure, the top-of-book price, and
the filled quantity.  (Prices are positive per the data model.) -/
theorem claim_C9 (A : ℚ) (lb la : List Level) (i j : ℕ)
    (hbne : lb ≠ []) (hane : la ≠ [])
    (hbpos : ∀ r ∈ lb, 0 < r.price) (hapos : ∀ r ∈ la, 0 < r.price)
    (hsb : slippage A lb i ≠ 0) (hsa : slippage A la j ≠ 0) :
    (∀ c d p, sellCurrencySlippage A lb i = some c →
      sellDollarSlippage A lb i = some d → sellPercentSlippage A lb i = some p →
      d = bidBestPrice lb * c ∧ p = c / slippage A lb i) ∧
    (∀ c d p, buyCurrencySlippage A la j = some c →
      buyDollarSlippage A la j = some d → buyPercentSlippage A la j = some p →
      d = askBestPrice la * c ∧ p = c / slippage A la j) := by
  have hBb : bidBestPrice lb ≠ 0 := ne_of_gt (bidBestPrice_pos lb hbne hbpos)
  have hBa : askBestPrice la ≠ 0 := ne_of_gt (askBestPrice_pos la hane hapos)
  constructor
  · intro c d p hc hd hp
    rw [sellCurrencySlippage, if_pos hsb] at hc
    rw [sellDollarSlippage, if_pos hsb] at hd
    rw [sellPercentSlippage, if_pos hsb] at hp
    obtain rfl := (Option.some.inj hc).symm
    obtain rfl := (Option.some.inj hd).symm
    obtain rfl := (Option.some.inj hp).symm
    constructor
    · field_simp [desiredAmount]
      ring
    · field_simp [desiredAmount]
  · intro c d p hc hd hp
    rw [buyCurrencySlippage, if_pos hsa] at hc
    rw [buyDollarSlippage, if_pos hsa] at hd
    rw [buyPercentSlippage, if_pos hsa] at hp
    obtain rfl := (Option.some.inj hc).symm
    obtain rfl := (Option.some.inj hd).symm
    obtain rfl := (Option.some.inj hp).symm
    constructor
    · field_simp [desiredAmount]
      ring
    · field_simp [desiredAmount]

/-- Witness for C9 at `order_amount = 2` on the bid ladder `[(2,1),(1,1)]`
(row 1, metrics `0, 0, 0`) and the ask ladder `[(1,1),(2,1)]` (row 1,
metrics `1/2, 1/2, 1/3`). -/
theorem claim_C9_witness :
    ((0 : ℚ) = bidBestPrice [(⟨2, 1⟩ : Level), ⟨1, 1⟩] * 0 ∧
      (0 : ℚ) = 0 / slippage 2 [(⟨2, 1⟩ : Level), ⟨1, 1⟩] 1) ∧
    ((1/2 : ℚ) = askBestPrice [(⟨1, 1⟩ : Level), ⟨2, 1⟩] * (1/2) ∧
      (1/3 : ℚ) = (1/2) / slippage 2 [(⟨1, 1⟩ : Level), ⟨2, 1⟩] 1) := by
  have h := claim_C9 2 [(⟨2, 1⟩ : Level), ⟨1, 1⟩] [(⟨1, 1⟩ : Level), ⟨2, 1⟩] 1 1
    (by decide) (by decide) (by decide) (by decide)
    (by norm_num [slippage, cumCost, cumQuantity, rowAt])
    (by norm_num [slippage, cumCost, cumQuantity, rowAt])
  exact ⟨h.1 0 0 0
      (by norm_num [sellCurrencySlippage, slippage, cumCost, cumQuantity, rowAt,
        desiredAmount, bidBestPrice])
      (by norm_num [sellDollarSlippage, slippage, cumCost, cumQuantity, rowAt,
        bidBestPrice])
      (by norm_num [sellPercentSlippage, slippage, cumCost, cumQuantity, rowAt,
        desiredAmount, bidBestPrice]),
    h.2 (1/2) (1/2) (1/3)
      (by norm_num [buyCurrencySlippage, slippage, cumCost, cumQuantity, rowAt,
        desiredAmount, askBestPrice])
      (by norm_num [buyDollarSlippage, slippage, cumCost, cumQuantity, rowAt,
        askBestPrice])
      (by norm_num [buyPercentSlippage, slippage, cumCost, cumQuantity, rowAt,
        desiredAmount, askBestPrice])⟩

/-- Claim C10: for every sorted ladder with positive prices and
quantities whose first row alone strictly exceeds the notional
(`price_0·quantity_0 > order_amount > 0`), the code emits at row 0 a
slippage quantity equal to `order_amount / best_price = desired_amount`,
and all three metrics are present with value exactly `0` (not the
`NoFill` sentinel) — strict top-of-book overfill is reported as zero
slippage, unlike the exact-fill case. -/
theorem claim_C10 (A : ℚ) (lb la : List Level)
    (hA : 0 < A) (hbne : lb ≠ []) (hane : la ≠ [])
    (hbs : BidSorted lb) (has : AskSorted la)
    (hbpos : ∀ r ∈ lb, 0 < r.price ∧ 0 < r.quantity)
    (hapos : ∀ r ∈ la, 0 < r.price ∧ 0 < r.quantity)
    (hbover : A < (rowAt lb 0).price * (rowAt lb 0).quantity)
    (haover : A < (rowAt la 0).price * (rowAt la 0).quantity) :
    slippage A lb 0 = desiredAmount A (bidBestPrice lb) ∧
    sellCurrencySlippage A lb 0 = some 0 ∧ sellDollarSlippage A lb 0 = some 0 ∧
    sellPercentSlippage A lb 0 = some 0 ∧
    slippage A la 0 = desiredAmount A (askBestPrice la) ∧
    buyCurrencySlippage A la 0 = some 0 ∧ buyDollarSlippage A la 0 = some 0 ∧
    buyPercentSlippage A la 0 = some 0 := by
  have hb0 : 0 < lb.length := List.length_pos.mpr hbne
  have ha0 : 0 < la.length := List.length_pos.mpr hane
  have hpb : 0 < (rowAt lb 0).price := (hbpos _ (rowAt_mem lb 0 hb0)).1
  have hpa : 0 < (rowAt la 0).price := (hapos _ (rowAt_mem la 0 ha0)).1
  have hccb : cumCost lb 0 = (rowAt lb 0).quantity * (rowAt lb 0).price := by
    have h := cumCost_eq_prev_add lb 0 hb0
    simpa [prevCumCost] using h
  have hcca : cumCost la 0 = (rowAt la 0).quantity * (rowAt la 0).price := by
    have h := cumCost_eq_prev_add la 0 ha0
    simpa [prevCumCost] using h
  have hcqb : cumQuantity lb 0 = (rowAt lb 0).quantity := by
    have h := cumQuantity_eq_prev_add lb 0 hb0
    simpa [prevCumQuantity] using h
  have hcqa : cumQuantity la 0 = (rowAt la 0).quantity := by
    have h := cumQuantity_eq_prev_add la 0 ha0
    simpa [prevCumQuantity] using h
  have hcrb : A < cumCost lb 0 := by rw [hccb, mul_comm]; exact hbover
  have hcra : A < cumCost la 0 := by rw [hcca, mul_comm]; exact haover
  have hbbest : bidBestPrice lb = (rowAt lb 0).price := bidBestPrice_sorted lb hbs hbne
  have habest : askBestPrice la = (rowAt la 0).price := askBestPrice_sorted la has hane
  have hsb : slippage A lb 0 = desiredAmount A (bidBestPrice lb) := by
    rw [slippage_of_lt A lb 0 hcrb, hccb, hcqb, desiredAmount, hbbest]
    ring
  have hsa : slippage A la 0 = desiredAmount A (askBestPrice la) := by
    rw [slippage_of_lt A la 0 hcra, hcca, hcqa, desiredAmount, habest]
    ring
  have hdb : desiredAmount A (bidBestPrice lb) ≠ 0 := by
    rw [desiredAmount, hbbest]
    exact ne_of_gt (div_pos hA hpb)
  have hda : desiredAmount A (askBestPrice la) ≠ 0 := by
    rw [desiredAmount, habest]
    exact ne_of_gt (div_pos hA hpa)
  have hsb0 : slippage A lb 0 ≠ 0 := by rw [hsb]; exact hdb
  have hsa0 : slippage A la 0 ≠ 0 := by rw [hsa]; exact hda
  refine ⟨hsb, ?_, ?_, ?_, hsa, ?_, ?_, ?_⟩
  · rw [sellCurrencySlippage, if_pos hsb0, hsb]
    norm_num
  · rw [sellDollarSlippage, if_pos hsb0, hsb, desiredAmount]
    rw [div_mul_cancel₀ A (hbbest ▸ ne_of_gt hpb)]
    norm_num
  · rw [sellPercentSlippage, if_pos hsb0, hsb, div_self hdb]
    norm_num
  · rw [buyCurrencySlippage, if_pos hsa0, hsa]
    norm_num
  · rw [buyDollarSlippage, if_pos hsa0, hsa, desiredAmount]
    rw [div_mul_cancel₀ A (habest ▸ ne_of_gt hpa)]
    norm_num
  · rw [buyPercentSlippage, if_pos hsa0, hsa, div_self hda]
    norm_num

/-- Witness for C10 on single-level ladders `[(2,1)]` with
`order_amount = 1 < 2 = price·quantity`. -/
theorem claim_C10_witness :
    slippage 1 [(⟨2, 1⟩ : Level)] 0 = desiredAmount 1 (bidBestPrice [(⟨2, 1⟩ : Level)]) ∧
    sellCurrencySlippage 1 [(⟨2, 1⟩ : Level)] 0 = some 0 ∧
    sellDollarSlippage 1 [(⟨2, 1⟩ : Level)] 0 = some 0 ∧
    sellPercentSlippage 1 [(⟨2, 1⟩ : Level)] 0 = some 0 ∧
    slippage 1 [(⟨2, 1⟩ : Level)] 0 = desiredAmount 1 (askBestPrice [(⟨2, 1⟩ : Level)]) ∧
    buyCurrencySlippage 1 [(⟨2, 1⟩ : Level)] 0 = some 0 ∧
    buyDollarSlippage 1 [(⟨2, 1⟩ : Level)] 0 = some 0 ∧
    buyPercentSlippage 1 [(⟨2, 1⟩ : Level)] 0 = some 0 :=
  claim_C10 1 [(⟨2, 1⟩ : Level)] [(⟨2, 1⟩ : Level)]
    (by norm_num) (by decide) (by decide) (by decide) (by decide)
    (by decide) (by decide)
    (by norm_num [rowAt]) (by norm_num [rowAt])

/-- Counterexample to claim C5 as stated: on the scenario ladder the
clearing-row percent slippage is exactly `8/85017 ≈ 0.0000941`, which is
strictly above `0.0000842` and therefore not `≈ 0.0000841` as the claim
asserts (the claim's `320000/1700.5 ≈ 188.1858` is a miscalculation; the
quotient is `≈ 188.1800`). -/
theorem claim_C5_cex :
    buyPercentSlippage 1000000 scenarioLadder 1 = some (8/85017) ∧
    (842 : ℚ)/10000000 < 8/85017 := by
  norm_num [scenarioLadder, buyPercentSlippage, slippage, rowAt, cumCost,
    cumQuantity, desiredAmount, askBestPrice]

/-- Claim C5, amended: for the concrete ask ladder
`[(1700.00, 400), (1700.50, 400), (1701.00, 400)]` with
`order_amount = 1,000,000`, row 1 is the clearing row
(`cum_cost_0 = 680,000 < 1,000,000`, `cum_cost_1 = 1,360,200`),
`remaining = 320,000`, the filled quantity is `Q = 400 + 320000/1700.5`,
`desired_amount = 1000000/1700`, and the buy percent slippage equals
`desired_amount/Q - 1 = 8/85017 ≈ 0.0000941` (not `≈ 0.0000841`), with
row 0's metrics being `NoFill`. -/
theorem claim_C5 :
    cumCost scenarioLadder 0 = 680000 ∧
    cumCost scenarioLadder 1 = 1360200 ∧
    (1000000 : ℚ) - cumCost scenarioLadder 0 = 320000 ∧
    buyPercentSlippage 1000000 scenarioLadder 1 =
      some ((1000000/1700) / (400 + 320000/(3401/2)) - 1) ∧
    buyPercentSlippage 1000000 scenarioLadder 1 = some (8/85017) ∧
    (940 : ℚ)/10000000 < 8/85017 ∧ (8 : ℚ)/85017 < 942/10000000 ∧
    buyCurrencySlippage 1000000 scenarioLadder 0 = none ∧
    buyDollarSlippage 1000000 scenarioLadder 0 = none ∧
    buyPercentSlippage 1000000 scenarioLadder 0 = none := by
  norm_num [scenarioLadder, cumCost, buyPercentSlippage, buyCurrencySlippage,
    buyDollarSlippage, slippage, rowAt, cumQuantity, desiredAmount, askBestPrice]

/-- Counterexample to claim C6 as stated: a malformed level (price `-1`,
quantity `0`) is not rejected at ingestion — the data transformation
carries it straight into the bid ladder that the walk consumes. -/
theorem claim_C6_cex :
    bidLadder [(⟨1, true, -1, 0⟩ : Trade)] 1 = [(⟨-1, 0⟩ : Level)] := by
  norm_num [bidLadder, bidRowsAt, sortDesc, insertDesc]

/-- Claim C6, amended: no validation is performed — every raw row,
including one with non-positive price or quantity, is carried unchanged
into its side's book at its timestamp (the code filters only on the side
flag and never inspects price or quantity). -/
theorem claim_C6 (ts : List Trade) (r : Trade) (h : r ∈ ts) :
    (r.isBid = true → (⟨r.price, r.quantity⟩ : Level) ∈ bidRowsAt ts r.timestamp) ∧
    (r.isBid = false → (⟨r.price, r.quantity⟩ : Level) ∈ askRowsAt ts r.timestamp) := by
  constructor <;> intro hb
  · unfold bidRowsAt
    apply List.mem_map.mpr
    refine ⟨r, ?_, rfl⟩
    apply List.mem_filter.mpr
    exact ⟨h, by simp [hb]⟩
  · unfold askRowsAt
    apply List.mem_map.mpr
    refine ⟨r, ?_, rfl⟩
    apply List.mem_filter.mpr
    exact ⟨h, by simp [hb]⟩

/-- Witness for the amended C6: a bid row with negative price and an ask
row with zero price both land in their ladders unrejected. -/
theorem claim_C6_witness :
    (⟨-1, 5⟩ : Level) ∈ bidRowsAt [(⟨1, true, -1, 5⟩ : Trade), ⟨1, false, 0, 3⟩] 1 ∧
    (⟨0, 3⟩ : Level) ∈ askRowsAt [(⟨1, true, -1, 5⟩ : Trade), ⟨1, false, 0, 3⟩] 1 :=
  ⟨(claim_C6 [(⟨1, true, -1, 5⟩ : Trade), ⟨1, false, 0, 3⟩]
      (⟨1, true, -1, 5⟩ : Trade) (by decide)).1 rfl,
   (claim_C6 [(⟨1, true, -1, 5⟩ : Trade), ⟨1, false, 0, 3⟩]
      (⟨1, false, 0, 3⟩ : Trade) (by decide)).2 rfl⟩

/-- Counterexample to claim C3 as stated: with
`trades = [(t=1, bid, 1, 1), (t=1, ask, 1, 1), (t=1, ask, 2, 1)]` and
`order_amount = 2`, the bid ladder's total cost is `1 < 2` (no bid row
passes the crossing test), yet timestamp 1 is NOT absent from the
combined output: the row-level inner join keeps it, and the aggregate
carries the ask-side metrics with null sell-side metrics. -/
theorem claim_C3_cex :
    totalCost (bidLadder [(⟨1, true, 1, 1⟩ : Trade), ⟨1, false, 1, 1⟩, ⟨1, false, 2, 1⟩] 1) < 2 ∧
    combinedRecordAt 2 [(⟨1, true, 1, 1⟩ : Trade), ⟨1, false, 1, 1⟩, ⟨1, false, 2, 1⟩] 1 =
      some ⟨some (1/2), some (1/2), some (1/3), none, none, none⟩ := by
  constructor
  · norm_num [totalCost, bidLadder, bidRowsAt, sortDesc, insertDesc]
  · norm_num [combinedRecordAt, bidRowsAt, askRowsAt, bidLadder, askLadder,
      sortAsc, sortDesc, insertAsc, insertDesc, firstNonNull,
      buyCurrencySlippage, buyDollarSlippage, buyPercentSlippage,
      sellCurrencySlippage, sellDollarSlippage, sellPercentSlippage,
      slippage, cumCost, cumQuantity, rowAt, desiredAmount, askBestPrice,
      bidBestPrice, List.range_succ, List.filterMap]
    intro h
    simp at h

/-- Claim C3, amended: a timestamp is absent from the combined output iff
one side has no raw rows at all there (the inner join is on the raw
per-row books); a side that has rows but whose total cost stays below
`order_amount` does not drop the timestamp — the combined row is still
emitted, with that side's three metrics null.  This holds symmetrically:
insufficient bid depth leaves the three sell metrics null, insufficient
ask depth leaves the three buy metrics null. -/
theorem claim_C3 (A : ℚ) (ts : List Trade) (t u : ℤ) (rec : CombinedRecord)
    (hrec : combinedRecordAt A ts t = some rec) :
    (combinedRecordAt A ts u = none ↔
      (bidRowsAt ts u = [] ∨ askRowsAt ts u = [])) ∧
    ((∀ r ∈ bidLadder ts t, 0 ≤ r.quantity * r.price) →
      totalCost (bidLadder ts t) < A →
      rec.sell_currency_slippage = none ∧ rec.sell_dollar_slippage = none ∧
      rec.sell_percent_slippage = none) ∧
    ((∀ r ∈ askLadder ts t, 0 ≤ r.quantity * r.price) →
      totalCost (askLadder ts t) < A →
      rec.buy_currency_slippage = none ∧ rec.buy_dollar_slippage = none ∧
      rec.buy_percent_slippage = none) := by
  have hcond : ¬(bidRowsAt ts t = [] ∨ askRowsAt ts t = []) := by
    intro hc
    rw [combinedRecordAt, if_pos hc] at hrec
    exact Option.noConfusion hrec
  rw [combinedRecordAt, if_neg hcond] at hrec
  obtain rfl := (Option.some.inj hrec).symm
  refine ⟨?_, fun hpos hins => ?_, fun hpos hins => ?_⟩
  · by_cases hc : bidRowsAt ts u = [] ∨ askRowsAt ts u = []
    · simp [combinedRecordAt, hc]
    · simp [combinedRecordAt, hc]
  · refine ⟨?_, ?_, ?_⟩ <;>
      (apply firstNonNull_of_all_none
       intro x hx
       obtain ⟨k, hk, rfl⟩ := List.mem_map.mp hx
       have hle : cumCost (bidLadder ts t) k ≤ A :=
         le_of_lt (lt_of_le_of_lt (cumCost_le_totalCost _ k hpos) hins)
       have hs : slippage A (bidLadder ts t) k = 0 := slippage_of_le _ _ _ hle
       simp [sellCurrencySlippage, sellDollarSlippage, sellPercentSlippage, hs])
  · refine ⟨?_, ?_, ?_⟩ <;>
      (apply firstNonNull_of_all_none
       intro x hx
       obtain ⟨k, hk, rfl⟩ := List.mem_map.mp hx
       have hle : cumCost (askLadder ts t) k ≤ A :=
         le_of_lt (lt_of_le_of_lt (cumCost_le_totalCost _ k hpos) hins)
       have hs : slippage A (askLadder ts t) k = 0 := slippage_of_le _ _ _ hle
       simp [buyCurrencySlippage, buyDollarSlippage, buyPercentSlippage, hs])

/-- Witness for the amended C3 on trades where both sides have one row of
total cost `1 < 2` at timestamp 1: the timestamp is present with all six
metrics null (both the sell and the buy side exercised), while timestamp
2 (no rows on either side) is absent. -/
theorem claim_C3_witness :
    (combinedRecordAt 2 [(⟨1, true, 1, 1⟩ : Trade), ⟨1, false, 1, 1⟩] 2 = none ↔
      (bidRowsAt [(⟨1, true, 1, 1⟩ : Trade), ⟨1, false, 1, 1⟩] 2 = [] ∨
       askRowsAt [(⟨1, true, 1, 1⟩ : Trade), ⟨1, false, 1, 1⟩] 2 = [])) ∧
    ((⟨none, none, none, none, none, none⟩ :
        CombinedRecord).sell_currency_slippage = none ∧
      (⟨none, none, none, none, none, none⟩ :
        CombinedRecord).sell_dollar_slippage = none ∧
      (⟨none, none, none, none, none, none⟩ :
        CombinedRecord).sell_percent_slippage = none) ∧
    ((⟨none, none, none, none, none, none⟩ :
        CombinedRecord).buy_currency_slippage = none ∧
      (⟨none, none, none, none, none, none⟩ :
        CombinedRecord).buy_dollar_slippage = none ∧
      (⟨none, none, none, none, none, none⟩ :
        CombinedRecord).buy_percent_slippage = none) := by
  have h := claim_C3 2 [(⟨1, true, 1, 1⟩ : Trade), ⟨1, false, 1, 1⟩] 1 2
    (⟨none, none, none, none, none, none⟩ : CombinedRecord)
    (by norm_num [combinedRecordAt, bidRowsAt, askRowsAt, bidLadder, askLadder,
        sortAsc, sortDesc, insertAsc, insertDesc, firstNonNull,
        buyCurrencySlippage, buyDollarSlippage, buyPercentSlippage,
        sellCurrencySlippage, sellDollarSlippage, sellPercentSlippage,
        slippage, cumCost, cumQuantity, rowAt, desiredAmount, askBestPrice,
        bidBestPrice, List.range_succ, List.filterMap])
  exact ⟨h.1,
    h.2.1 (by norm_num [bidLadder, bidRowsAt, sortDesc, insertDesc])
      (by norm_num [totalCost, bidLadder, bidRowsAt, sortDesc, insertDesc]),
    h.2.2 (by norm_num [askLadder, askRowsAt, sortAsc, insertAsc])
      (by norm_num [totalCost, askLadder, askRowsAt, sortAsc, insertAsc])⟩

end OrderBook
